import Mathlib

/-!
Shallow embedding of the PyGEM mass-redistribution engine
(`src/pygem/glacierdynamics.py`, class `MassRedistributionCurveModel`)
over exact rational arithmetic, together with proofs about the claims of
the specification.

Conventions used throughout:
* a numpy array over elevation bins becomes a function `Fin n → ℚ`;
* numpy boolean-mask assignment becomes an `if`-expression;
* `x / 0 = 0` in `ℚ`; every theorem that depends on a quotient carries
  hypotheses making the denominator nonzero, mirroring the configurations
  in which the floating-point code is well defined;
* the iterative retreat/advance `while` loops become fuel-indexed
  recursions returning `none` when the fuel runs out with the loop guard
  still true, so a `some` result certifies that the loop terminated;
* an operation that raises an uncaught Python exception (for example a
  numpy reduction over an empty index set) returns `none`.
-/

namespace PyGEM

attribute [local semireducible] Rat.add Rat.mul Rat.inv Rat.sub Rat.ofScientific

set_option maxRecDepth 100000

/-- Constant `pygem_input.tolerance = 1e-12` (pygem_input.py line 40). -/
def tolerance : ℚ := 1e-12

/-- Constant `pygem_input.icethickness_advancethreshold = 5` (pygem_input.py line 318). -/
def icethickness_advancethreshold : ℚ := 5

/-- Constant `pygem_input.terminus_percentage = 20` (pygem_input.py line 321). -/
def terminus_percentage : ℚ := 20

/-- Modelled from the spec: the OGGM flowline object, an external collaborator
of this repository (spec section 3, `FlowlineState`).  Per elevation bin it
stores a cross-sectional area `sect` (the `section` attribute of the source,
renamed because `section` is a Lean keyword), a fixed bed width `bedw`, a
surface elevation `surface_h`, and the fixed bin spacing `dx_meter`.
Ice thickness is derived from area and bed width, and width/area/thickness are
zero together outside the glacier extent, as the spec's invariants require. -/
@[ext]
structure Flowline (n : ℕ) where
  dx_meter : ℚ
  bedw : Fin n → ℚ
  surface_h : Fin n → ℚ
  sect : Fin n → ℚ
  deriving DecidableEq

variable {n : ℕ}

/-- Modelled from the spec: derived ice thickness of bin `i`
(area divided by width; thickness is never state, spec section 4.2 step 7). -/
def Flowline.thick (fl : Flowline n) (i : Fin n) : ℚ := fl.sect i / fl.bedw i

/-- Modelled from the spec: glacier width of bin `i`; zero exactly where the
bin carries no ice ("area and thickness are zero together for bins outside
the glacier extent", spec section 3), otherwise the fixed bed width. -/
def Flowline.widths_m (fl : Flowline n) (i : Fin n) : ℚ :=
  if fl.sect i = 0 then 0 else fl.bedw i

/-- `self.fls[0].thick.nonzero()[0]`: indices of the bins with nonzero ice. -/
def activeIdx (fl : Flowline n) : Finset (Fin n) :=
  Finset.univ.filter fun i => fl.thick i ≠ 0

/-- Lines 637-638 / 431-432: `glacier_area_t0 = width_t0 * dx_meter` followed by
`glacier_area_t0[thick_t0 == 0] = 0`. -/
def glacier_area (dx : ℚ) (width_t0 thick_t0 : Fin n → ℚ) (i : Fin n) : ℚ :=
  if thick_t0 i = 0 then 0 else width_t0 i * dx

/-- `glacier_area_t0.sum()`: total active-bin area. -/
def total_area (dx : ℚ) (width_t0 thick_t0 : Fin n → ℚ) : ℚ :=
  ∑ i, glacier_area dx width_t0 thick_t0 i

/-- Lines 642-647: selection of the Huss and Hock (2015) curve coefficients
`(gamma, a, b, c)` from the total active-bin area. -/
def huss_coeffs (A : ℚ) : ℕ × ℚ × ℚ × ℚ :=
  if 20 < A then (6, -0.02, 0.12, 0)
  else if 5 < A then (4, -0.05, 0.19, 0.01)
  else (2, -0.30, 0.60, 0.09)

/-- Total version of `numpy.max` over an index set (`0` on the empty set; the
callers below guard the empty case, where numpy raises, separately). -/
def finsetMax (s : Finset (Fin n)) (f : Fin n → ℚ) : ℚ :=
  if h : s.Nonempty then s.sup' h f else 0

/-- Total version of `numpy.min` over an index set (`0` on the empty set). -/
def finsetMin (s : Finset (Fin n)) (f : Fin n → ℚ) : ℚ :=
  if h : s.Nonempty then s.inf' h f else 0

/-- Lines 649-654: normalized elevation range,
`(max elevation - bin elevation) / (max elevation - min elevation)` over the
active bins, written into the entries with positive glacier area and zero
elsewhere. -/
def elevrange_norm (dx : ℚ) (width_t0 thick_t0 : Fin n → ℚ) (glac_idx : Finset (Fin n))
    (heights : Fin n → ℚ) (i : Fin n) : ℚ :=
  if 0 < glacier_area dx width_t0 thick_t0 i then
    (finsetMax glac_idx heights - heights i) /
      (finsetMax glac_idx heights - finsetMin glac_idx heights)
  else 0

/-- Lines 663-665: clip a curve value into `[0, 1]` (entries above one are set
to one, then entries below zero are set to zero). -/
def clip01 (x : ℚ) : ℚ := if 1 < x then 1 else if x < 0 then 0 else x

/-- Lines 658-665: normalized ice thickness change
`delta_h = (h_n + a)^gamma + b*(h_n + a) + c`, computed on the bins with
positive area and clipped into `[0, 1]`. -/
def icethicknesschange_norm (dx : ℚ) (width_t0 thick_t0 : Fin n → ℚ)
    (glac_idx : Finset (Fin n)) (heights : Fin n → ℚ) (i : Fin n) : ℚ :=
  if 0 < glacier_area dx width_t0 thick_t0 i then
    clip01 ((elevrange_norm dx width_t0 thick_t0 glac_idx heights i +
        (huss_coeffs (total_area dx width_t0 thick_t0)).2.1) ^
          (huss_coeffs (total_area dx width_t0 thick_t0)).1 +
      (huss_coeffs (total_area dx width_t0 thick_t0)).2.2.1 *
        (elevrange_norm dx width_t0 thick_t0 glac_idx heights i +
          (huss_coeffs (total_area dx width_t0 thick_t0)).2.1) +
      (huss_coeffs (total_area dx width_t0 thick_t0)).2.2.2)
  else 0

/-- Line 668: Huss' ice thickness scaling factor,
`fs_huss = glacier_volumechange / (glacier_area_t0 * icethicknesschange_norm).sum()`. -/
def fs_huss (dx : ℚ) (width_t0 thick_t0 : Fin n → ℚ) (glac_idx : Finset (Fin n))
    (vc : ℚ) (heights : Fin n → ℚ) : ℚ :=
  vc / ∑ i, glacier_area dx width_t0 thick_t0 i *
      icethicknesschange_norm dx width_t0 thick_t0 glac_idx heights i

/-- Lines 640-676: per-bin volume change.  With more than 3 active bins the
empirical curve is applied (`icethicknesschange_norm * fs_huss * glacier_area_t0`);
otherwise the climatic mass balance is used directly
(`massbalclim_annual * glacier_area_t0`). -/
def bin_volumechange (dx : ℚ) (width_t0 thick_t0 : Fin n → ℚ) (glac_idx : Finset (Fin n))
    (vc : ℚ) (mb heights : Fin n → ℚ) (i : Fin n) : ℚ :=
  if 3 < glac_idx.card then
    icethicknesschange_norm dx width_t0 thick_t0 glac_idx heights i *
      fs_huss dx width_t0 thick_t0 glac_idx vc heights * glacier_area dx width_t0 thick_t0 i
  else mb i * glacier_area dx width_t0 thick_t0 i

/-- Line 701: entries below the absolute tolerance are zeroed to avoid
perpetuating rounding noise. -/
def tol0 (r : ℚ) : ℚ := if |r| < tolerance then 0 else r

/-- Lines 685-686: the updated cross-sectional area,
`clip_min(section + bin_volumechange / dx, 0)`. -/
def curve_newsect (fl : Flowline n) (thick_t0 width_t0 : Fin n → ℚ) (glac_idx : Finset (Fin n))
    (vc : ℚ) (mb heights : Fin n → ℚ) (i : Fin n) : ℚ :=
  max (fl.sect i +
    bin_volumechange fl.dx_meter width_t0 thick_t0 glac_idx vc mb heights i / fl.dx_meter) 0

/-- Lines 685-686: the post-update flowline.  The cross-sectional area is the
authoritative state; thickness and width are derived from it. -/
def curve_fl1 (fl : Flowline n) (thick_t0 width_t0 : Fin n → ℚ) (glac_idx : Finset (Fin n))
    (vc : ℚ) (mb heights : Fin n → ℚ) : Flowline n :=
  { fl with sect := curve_newsect fl thick_t0 width_t0 glac_idx vc mb heights }

/-- Lines 697-703: the remaining (unallocated) glacier volume change,
`(bin_volumechange - (section_t1 * dx - section_t0 * dx))`, per-bin zeroed under
the tolerance and summed. -/
def curve_remaining (fl : Flowline n) (section_t0 thick_t0 width_t0 : Fin n → ℚ)
    (glac_idx : Finset (Fin n)) (vc : ℚ) (mb heights : Fin n → ℚ) : ℚ :=
  ∑ i, tol0 (bin_volumechange fl.dx_meter width_t0 thick_t0 glac_idx vc mb heights i -
    ((curve_fl1 fl thick_t0 width_t0 glac_idx vc mb heights).sect i * fl.dx_meter -
      section_t0 i * fl.dx_meter))

/-- `_massredistributioncurveHuss` (lines 592-708): returns the updated
flowline, the per-bin ice thickness change `self.fls[0].thick - thick_t0`, and
the remaining glacier volume change. -/
def curveHuss (fl : Flowline n) (section_t0 thick_t0 width_t0 : Fin n → ℚ)
    (glac_idx : Finset (Fin n)) (vc : ℚ) (mb heights : Fin n → ℚ) :
    Flowline n × (Fin n → ℚ) × ℚ :=
  (curve_fl1 fl thick_t0 width_t0 glac_idx vc mb heights,
   fun i => (curve_fl1 fl thick_t0 width_t0 glac_idx vc mb heights).thick i - thick_t0 i,
   curve_remaining fl section_t0 thick_t0 width_t0 glac_idx vc mb heights)

/-- Lines 466-485: the glacier-retreat loop.  While the remaining volume
change is negative, the current state is re-read, a synthetic uniform climatic
mass balance `remaining / total active area` is built over the still-active
bins (line 473 masks the area with the *outer* `thick_t0`), and the curve
function is re-invoked.  Fuel-indexed; `none` means the fuel ran out with the
guard still true. -/
def retreatLoop (fuel : ℕ) (fl : Flowline n) (thick_t0 heights : Fin n → ℚ)
    (ic : Fin n → ℚ) (rem : ℚ) : Option (Flowline n × (Fin n → ℚ) × ℚ) :=
  match fuel with
  | 0 => if rem < 0 then none else some (fl, ic, rem)
  | Nat.succ f =>
    if rem < 0 then
      let gidx := activeIdx fl
      let areaSum := ∑ j, glacier_area fl.dx_meter fl.widths_m thick_t0 j
      let mbr := fun i => if i ∈ gidx then rem / areaSum else 0
      let r := curveHuss fl fl.sect fl.thick fl.widths_m gidx rem mbr heights
      retreatLoop f r.1 thick_t0 heights r.2.1 r.2.2
    else some (fl, ic, rem)

/-- Line 505: thickness changes at or below the advance threshold are zeroed;
the surviving entries identify the advancing bins. -/
def adv_ic (ic0 : Fin n → ℚ) (i : Fin n) : ℚ :=
  if ic0 i ≤ icethickness_advancethreshold then 0 else ic0 i

/-- Line 506: `glac_idx_advance = icethickness_change.nonzero()[0]`. -/
def adv_idx (ic0 : Fin n → ℚ) : Finset (Fin n) :=
  Finset.univ.filter fun i => adv_ic ic0 i ≠ 0

/-- Lines 509-510: cap each advancing bin's thickness at the previous
thickness plus the advance threshold.  The assignment to `thick` is realised
on the authoritative `sect` state (`section = thick * bed width`). -/
def adv_fl1 (fl : Flowline n) (ic0 : Fin n → ℚ) : Flowline n :=
  { fl with sect := fun i =>
      if i ∈ adv_idx ic0 then
        (fl.thick i - (adv_ic ic0 i - icethickness_advancethreshold)) * fl.bedw i
      else fl.sect i }

/-- Line 511: `glacier_area_t1 = self.fls[0].widths_m * dx_meter` after the
thickness capping (and before the new bin is filled). -/
def adv_garea_t1 (fl : Flowline n) (ic0 : Fin n → ℚ) (i : Fin n) : ℚ :=
  (adv_fl1 fl ic0).widths_m i * (adv_fl1 fl ic0).dx_meter

/-- Lines 513-515: the advance volume freed by the capping. -/
def adv_volume (fl : Flowline n) (ic0 : Fin n → ℚ) : ℚ :=
  (∑ i ∈ adv_idx ic0, (fl.widths_m i * fl.dx_meter) * fl.thick i) -
    ∑ i ∈ adv_idx ic0, adv_garea_t1 fl ic0 i * (adv_fl1 fl ic0).thick i

/-- Line 520: the active bins after the capping. -/
def adv_gidx (fl : Flowline n) (ic0 : Fin n → ℚ) : Finset (Fin n) :=
  activeIdx (adv_fl1 fl ic0)

/-- Line 521: the minimum surface elevation of the (capped) glacier. -/
def adv_minelev (fl : Flowline n) (ic0 : Fin n → ℚ) : ℚ :=
  finsetMin (adv_gidx fl ic0) fl.surface_h

/-- Line 523 (inner `np.where`): bins with surface elevation strictly below
the current glacier minimum. -/
def adv_below0 (fl : Flowline n) (ic0 : Fin n → ℚ) : Finset (Fin n) :=
  Finset.univ.filter fun i => fl.surface_h i < adv_minelev fl ic0

/-- Lines 522-524: the elevation of the bin to colonize: the maximal surface
elevation among the bins strictly below the current glacier minimum. -/
def adv_target (fl : Flowline n) (ic0 : Fin n → ℚ) : ℚ :=
  finsetMax (adv_below0 fl ic0) fl.surface_h

/-- Lines 522-524: `glac_idx_bin2add`, the first index whose surface elevation
attains `adv_target` (numpy `np.where(...)[0][0]`). -/
def adv_bin2add (fl : Flowline n) (ic0 : Fin n → ℚ) : Option (Fin n) :=
  (List.finRange n).find? fun i => decide (fl.surface_h i = adv_target fl ic0)

/-- Lines 525-527: fill the new bin's cross-sectional area with
`advance_volume / dx_meter`. -/
def adv_fl2 (fl : Flowline n) (ic0 : Fin n → ℚ) (b : Fin n) : Flowline n :=
  { adv_fl1 fl ic0 with sect := fun i =>
      if i = b then adv_volume fl ic0 / fl.dx_meter else (adv_fl1 fl ic0).sect i }

/-- Lines 531-538: the terminus bin set: active bins whose normalized elevation
position is below `terminus_percentage`; if at most one bin qualifies, the full
active set is used instead. -/
def adv_term (fl : Flowline n) (ic0 heights : Fin n → ℚ) : Finset (Fin n) :=
  let t0 := (adv_gidx fl ic0).filter fun i =>
    (heights i - finsetMin (adv_gidx fl ic0) heights) /
        (finsetMax (adv_gidx fl ic0) heights - finsetMin (adv_gidx fl ic0) heights) * 100 <
      terminus_percentage
  if t0.card ≤ 1 then adv_gidx fl ic0 else t0

/-- Lines 551-556: the fallback terminus bin set computed from the initial
glacier indices `glac_idx_initial`. -/
def adv_termInit (heights : Fin n → ℚ) (gii : Finset (Fin n)) : Finset (Fin n) :=
  let t0 := gii.filter fun i =>
    (heights i - finsetMin gii heights) /
        (finsetMax gii heights - finsetMin gii heights) * 100 < terminus_percentage
  if t0.card ≤ 1 then gii else t0

/-- Mean of `f` over an index set; `none` models numpy's `nan` result on an
empty mean (`np.mean([])`), which poisons the later `>` comparison. -/
def meanOpt (s : Finset (Fin n)) (f : Fin n → ℚ) : Option ℚ :=
  if s = ∅ then none else some ((∑ i ∈ s, f i) / s.card)

/-- Lines 544-561: the terminus average thickness.  The `try` branch removes
the first global index attaining the terminus minimum elevation from the
terminus set; if that index is not in the set (`list.remove` raises), the
`except` branch recomputes the terminus from the initial glacier indices.
Outer `none` models an uncaught exception (e.g. empty `glac_idx_initial`);
inner `none` models a `nan` average. -/
def adv_tavgRes (fl : Flowline n) (ic0 heights : Fin n → ℚ) (gii : Finset (Fin n))
    (b : Fin n) : Option (Option ℚ) :=
  match (List.finRange n).find?
      (fun i => decide (heights i = finsetMin (adv_term fl ic0 heights) heights)) with
  | none => none
  | some m =>
    if m ∈ adv_term fl ic0 heights then
      some (meanOpt ((adv_term fl ic0 heights).erase m) (adv_fl2 fl ic0 b).thick)
    else
      if gii.Nonempty then
        match (List.finRange n).find?
            (fun i => decide (heights i = finsetMin (adv_termInit heights gii) heights)) with
        | none => none
        | some m2 =>
          if m2 ∈ adv_termInit heights gii then
            some (meanOpt ((adv_termInit heights gii).erase m2) (adv_fl2 fl ic0 b).thick)
          else none
      else none

/-- The terminus average thickness value (`none` when it is `nan`). -/
def adv_tavg (fl : Flowline n) (ic0 heights : Fin n → ℚ) (gii : Finset (Fin n))
    (b : Fin n) : Option ℚ :=
  (adv_tavgRes fl ic0 heights gii b).getD none

/-- Lines 563-565: if the new bin's thickness exceeds the terminus average,
cap it at the average (again realised on the `sect` state).  A `nan` average
makes the comparison false, so no capping happens. -/
def adv_fl3 (fl : Flowline n) (ic0 heights : Fin n → ℚ) (gii : Finset (Fin n))
    (b : Fin n) : Flowline n :=
  match adv_tavg fl ic0 heights gii b with
  | some t =>
    if t < (adv_fl2 fl ic0 b).thick b then
      { adv_fl2 fl ic0 b with sect := fun i =>
          if i = b then t * fl.bedw b else (adv_fl2 fl ic0 b).sect i }
    else adv_fl2 fl ic0 b
  | none => adv_fl2 fl ic0 b

/-- Lines 566-568: the advance volume left after the new bin was (possibly)
capped: `advance_volume -= section[bin2add] * dx`. -/
def adv_av2 (fl : Flowline n) (ic0 heights : Fin n → ℚ) (gii : Finset (Fin n))
    (b : Fin n) : ℚ :=
  match adv_tavg fl ic0 heights gii b with
  | some t =>
    if t < (adv_fl2 fl ic0 b).thick b then
      adv_volume fl ic0 - (adv_fl3 fl ic0 heights gii b).sect b * fl.dx_meter
    else adv_volume fl ic0
  | none => adv_volume fl ic0

/-- Line 573: `below_glac_idx`, the bins below the minimum elevation of the
bins with positive (pre-colonization) area `glacier_area_t1`. -/
def adv_below2 (fl : Flowline n) (ic0 heights : Fin n → ℚ) : Finset (Fin n) :=
  Finset.univ.filter fun i =>
    heights i < finsetMin (Finset.univ.filter fun j => 0 < adv_garea_t1 fl ic0 j) heights

/-- Lines 580-589: redistribute the remaining advance volume over the current
glacier with a synthetic uniform mass balance built from
`glacier_volumechange_remaining / glacier_area_t0.sum()` (the mass balance uses
the *remaining* volume change while the curve is invoked with the advance
volume, exactly as the source does). -/
def adv_redist (fl : Flowline n) (ic0 heights : Fin n → ℚ) (gii : Finset (Fin n))
    (b : Fin n) (rem : ℚ) : Flowline n × (Fin n → ℚ) × ℚ :=
  let fl3 := adv_fl3 fl ic0 heights gii b
  let gidx2 := activeIdx fl3
  let areaSum := ∑ j, fl3.widths_m j * fl3.dx_meter
  let mb2 := fun i => if i ∈ gidx2 then rem / areaSum else 0
  curveHuss fl3 fl3.sect fl3.thick fl3.widths_m gidx2 (adv_av2 fl ic0 heights gii b) mb2 heights

/-- One iteration of the glacier-advance loop (lines 494-589).  Returns the
updated flowline, the thickness-change field the loop guard re-examines, the
remaining glacier volume change, and the final local `advance_volume`.
`none` models an uncaught Python exception: an empty active set (line 521), no
bin below the glacier minimum (line 524, `np.max` of an empty array), a failed
terminus fallback, or an empty `glacier_area_t1 > 0` set (line 573). -/
def advanceStep (fl : Flowline n) (ic0 heights : Fin n → ℚ) (gii : Finset (Fin n))
    (rem : ℚ) : Option (Flowline n × (Fin n → ℚ) × ℚ × ℚ) :=
  if (adv_gidx fl ic0).Nonempty then
    if (adv_below0 fl ic0).Nonempty then
      match adv_bin2add fl ic0 with
      | none => none
      | some b =>
        match adv_tavgRes fl ic0 heights gii b with
        | none => none
        | some _ =>
          if 0 < adv_av2 fl ic0 heights gii b then
            if (Finset.univ.filter fun j => 0 < adv_garea_t1 fl ic0 j).Nonempty then
              if adv_below2 fl ic0 heights = ∅ then
                some ({ adv_fl3 fl ic0 heights gii b with sect := fl.sect },
                  adv_ic ic0, rem, 0)
              else
                some ((adv_redist fl ic0 heights gii b rem).1,
                  (adv_redist fl ic0 heights gii b rem).2.1,
                  (adv_redist fl ic0 heights gii b rem).2.2,
                  adv_av2 fl ic0 heights gii b)
            else none
          else some (adv_fl3 fl ic0 heights gii b, adv_ic ic0, rem,
            adv_av2 fl ic0 heights gii b)
    else none
  else none

/-- Lines 494-589: the glacier-advance loop, iterated while some bin's
thickness change exceeds the advance threshold.  Fuel-indexed; `none` means
either an uncaught exception inside an iteration or fuel exhaustion with the
guard still true. -/
def advanceLoop (fuel : ℕ) (fl : Flowline n) (ic heights : Fin n → ℚ)
    (gii : Finset (Fin n)) (rem : ℚ) : Option (Flowline n × (Fin n → ℚ) × ℚ) :=
  match fuel with
  | 0 =>
    if ∃ i, icethickness_advancethreshold < ic i then none else some (fl, ic, rem)
  | Nat.succ f =>
    if ∃ i, icethickness_advancethreshold < ic i then
      match advanceStep fl ic heights gii rem with
      | none => none
      | some r => advanceLoop f r.1 r.2.1 heights gii r.2.2.1
    else some (fl, ic, rem)

/-- `_massredistributionHuss` (lines 400-589) with `hindcast = 0` and
`option_massredistribution = 1`: computes the annual glacier-wide volume
change from the climatic mass balance, and either redistributes it through the
curve function followed by the retreat and advance loops, or — when the volume
loss is at least the whole glacier volume — returns without touching the
state (the source merely skips the redistribution branch). -/
def massredistributionHuss (fuelR fuelA : ℕ) (fl : Flowline n) (mb : Fin n → ℚ)
    (gii : Finset (Fin n)) (heights : Fin n → ℚ) (sec_in_year : ℚ) :
    Option (Flowline n) :=
  if -(∑ i, mb i * sec_in_year * glacier_area fl.dx_meter fl.widths_m fl.thick i) <
      ∑ i, fl.sect i * fl.dx_meter then
    (retreatLoop fuelR
        (curveHuss fl fl.sect fl.thick fl.widths_m (activeIdx fl)
          (∑ i, mb i * sec_in_year * glacier_area fl.dx_meter fl.widths_m fl.thick i)
          mb heights).1
        fl.thick heights
        (curveHuss fl fl.sect fl.thick fl.widths_m (activeIdx fl)
          (∑ i, mb i * sec_in_year * glacier_area fl.dx_meter fl.widths_m fl.thick i)
          mb heights).2.1
        (curveHuss fl fl.sect fl.thick fl.widths_m (activeIdx fl)
          (∑ i, mb i * sec_in_year * glacier_area fl.dx_meter fl.widths_m fl.thick i)
          mb heights).2.2).bind fun r2 =>
      (advanceLoop fuelA r2.1 r2.2.1 heights gii r2.2.2).map fun r3 => r3.1
  else some fl

/-- The attributes assigned by `MassRedistributionCurveModel.__init__`
(lines 31-73). -/
structure MassRedistributionCurveModel where
  y0 : ℚ
  option_areaconstant : Bool
  spinupyears : ℤ
  constantarea_years : ℤ
  calving_m3_since_y0 : ℚ
  deriving DecidableEq

/-- Modelled from the spec: the external OGGM `FlowlineModel` superclass
initializer stores the supplied `y0` argument as the instance attribute `y0`
("initial year of the simulation", docstring lines 45-46). -/
def FlowlineModel_init (y0 : ℚ) : MassRedistributionCurveModel :=
  { y0 := y0, option_areaconstant := false, spinupyears := 0,
    constantarea_years := 0, calving_m3_since_y0 := 0 }

/-- `MassRedistributionCurveModel.__init__` (lines 62-73): the `super()`
initializer runs first with the caller's `y0`, then the attributes are set,
including the unconditional `self.y0 = 0` of line 68. -/
def MassRedistributionCurveModel_init (y0 : ℚ) (option_areaconstant : Bool)
    (spinupyears constantarea_years : ℤ) : MassRedistributionCurveModel :=
  let m := FlowlineModel_init y0
  { m with option_areaconstant := option_areaconstant,
           constantarea_years := constantarea_years,
           spinupyears := spinupyears,
           y0 := 0,
           calving_m3_since_y0 := 0 }

/-- A floating-point bin thickness as the post-run validation of `run_until`
sees it: an exact finite value, `nan`, or `+inf`. -/
inductive FloatVal where
  | fin (q : ℚ)
  | nan
  | inf
  deriving DecidableEq

/-- `np.isfinite` on a thickness value. -/
def FloatVal.isfinite : FloatVal → Bool
  | fin _ => true
  | nan => false
  | inf => false

/-- IEEE comparison `x > q`: `nan` compares false, `+inf` compares true. -/
def FloatVal.gt (x : FloatVal) (q : ℚ) : Bool :=
  match x with
  | fin v => decide (q < v)
  | nan => false
  | inf => true

/-- The two fatal errors the end-of-run validation of `run_until` can raise. -/
inductive RunError where
  | boundsError
  | nanError
  deriving DecidableEq

/-- Lines 97-105 of `run_until`: after the yearly steps, raise
`RuntimeError` when boundary checking is enabled and the terminus (last) bin
thickness exceeds 10 m, otherwise raise `FloatingPointError` when any bin
thickness is non-finite; the state itself is never modified. -/
def run_until_checks (check_for_boundaries : Bool) (thick : List FloatVal) :
    Option RunError :=
  if check_for_boundaries && (thick.getLastD (FloatVal.fin 0)).gt 10 then
    some RunError.boundsError
  else if thick.any (fun v => !v.isfinite) then some RunError.nanError
  else none

/-! Concrete synthetic glaciers used by the witnesses and counterexamples. -/

/-- A 5-bin synthetic glacier (bed widths 1 m, bin spacing 1 m, elevations
50..10 m): the two lowest bins hold only 1 m² of section each. -/
def retreat5_fl : Flowline 5 :=
  { dx_meter := 1, bedw := fun _ => 1, surface_h := ![50, 40, 30, 20, 10],
    sect := ![100, 100, 100, 1, 1] }

/-- Uniform climatic mass balance producing a −15 m³ annual volume change on
`retreat5_fl`. -/
def retreat5_mb : Fin 5 → ℚ := fun _ => -3

/-- The initial curve invocation of the yearly update on `retreat5_fl`. -/
def retreat5_c1 : Flowline 5 × (Fin 5 → ℚ) × ℚ :=
  curveHuss retreat5_fl retreat5_fl.sect retreat5_fl.thick retreat5_fl.widths_m
    (activeIdx retreat5_fl) (-15) retreat5_mb retreat5_fl.surface_h

/-- The retreat loop run on the outcome of `retreat5_c1`. -/
def retreat5_res : Option (Flowline 5 × (Fin 5 → ℚ) × ℚ) :=
  retreatLoop 2 retreat5_c1.1 retreat5_fl.thick retreat5_fl.surface_h
    retreat5_c1.2.1 retreat5_c1.2.2

/-- A 6-bin domain whose glacier initially occupies the four highest bins
(elevations 60..30 m); the bins at 20 m and 10 m are below the initial
extent. -/
def adv6_fl : Flowline 6 :=
  { dx_meter := 1, bedw := fun _ => 1, surface_h := ![60, 50, 40, 30, 20, 10],
    sect := ![20, 20, 20, 20, 0, 0] }

/-- The initial glacier indices (`glac_idx_initial`) of `adv6_fl`. -/
def adv6_gii : Finset (Fin 6) := {0, 1, 2, 3}

/-- A strongly positive climatic mass balance on the active bins of `adv6_fl`,
large enough to trigger the advance loop. -/
def adv6_mb : Fin 6 → ℚ := ![10, 10, 10, 10, 0, 0]

/-- A 2-bin glacier of total volume 5 m³. -/
def loss2_fl : Flowline 2 :=
  { dx_meter := 1, bedw := fun _ => 1, surface_h := ![20, 10], sect := ![3, 2] }

/-- A climatic mass balance whose volume loss (20 m³) exceeds the total volume
of `loss2_fl`. -/
def loss2_mb : Fin 2 → ℚ := fun _ => -10

/-- A 4-bin glacier with unit widths used to witness the conservation
theorem. -/
def cons4_fl : Flowline 4 :=
  { dx_meter := 1, bedw := fun _ => 1, surface_h := ![40, 30, 20, 10],
    sect := ![100, 100, 100, 100] }

/-- A 2-bin glacier used to witness the zero-forcing identity. -/
def zero2_fl : Flowline 2 :=
  { dx_meter := 1, bedw := fun _ => 1, surface_h := ![20, 10], sect := ![3, 2] }

/-! Helper lemmas. -/

theorem clip01_nonneg (x : ℚ) : 0 ≤ clip01 x := by
  unfold clip01
  split_ifs with h1 h2
  · norm_num
  · exact le_refl 0
  · linarith

theorem clip01_le_one (x : ℚ) : clip01 x ≤ 1 := by
  unfold clip01
  split_ifs with h1 h2
  · exact le_refl 1
  · norm_num
  · linarith

theorem clip01_eq_one {x : ℚ} (h : 1 ≤ x) : clip01 x = 1 := by
  unfold clip01
  split_ifs with h1 h2
  · rfl
  · linarith
  · linarith

theorem icethicknesschange_norm_nonneg (dx : ℚ) (width_t0 thick_t0 : Fin n → ℚ)
    (glac_idx : Finset (Fin n)) (heights : Fin n → ℚ) (i : Fin n) :
    0 ≤ icethicknesschange_norm dx width_t0 thick_t0 glac_idx heights i := by
  unfold icethicknesschange_norm
  split_ifs
  · exact clip01_nonneg _
  · exact le_refl 0

theorem icethicknesschange_norm_le_one (dx : ℚ) (width_t0 thick_t0 : Fin n → ℚ)
    (glac_idx : Finset (Fin n)) (heights : Fin n → ℚ) (i : Fin n) :
    icethicknesschange_norm dx width_t0 thick_t0 glac_idx heights i ≤ 1 := by
  unfold icethicknesschange_norm
  split_ifs
  · exact clip01_le_one _
  · norm_num

theorem tol0_zero : tol0 0 = 0 := by
  unfold tol0
  split_ifs
  · rfl
  · rfl

theorem huss_coeffs_gt20 {A : ℚ} (h : 20 < A) : huss_coeffs A = (6, -0.02, 0.12, 0) := by
  rw [huss_coeffs, if_pos h]

theorem huss_coeffs_mid {A : ℚ} (h5 : 5 < A) (h20 : ¬20 < A) :
    huss_coeffs A = (4, -0.05, 0.19, 0.01) := by
  rw [huss_coeffs, if_neg h20, if_pos h5]

theorem huss_coeffs_le5 {A : ℚ} (h : ¬5 < A) : huss_coeffs A = (2, -0.30, 0.60, 0.09) := by
  rw [huss_coeffs, if_neg fun hc => h (by linarith), if_neg h]

/-- On the lowest-elevation active bin the normalized elevation position is 1
and all three Huss coefficient triples evaluate at or above 1 there, so after
clipping the normalized thickness change of that bin is exactly 1. -/
theorem icethicknesschange_norm_at_min (dx : ℚ) (width_t0 thick_t0 : Fin n → ℚ)
    (glac_idx : Finset (Fin n)) (heights : Fin n → ℚ) (i0 : Fin n)
    (harea : 0 < glacier_area dx width_t0 thick_t0 i0)
    (hmin : heights i0 = finsetMin glac_idx heights)
    (hlt : finsetMin glac_idx heights < finsetMax glac_idx heights) :
    icethicknesschange_norm dx width_t0 thick_t0 glac_idx heights i0 = 1 := by
  have hdiff : (0 : ℚ) < finsetMax glac_idx heights - finsetMin glac_idx heights := by
    linarith
  have helev1 : elevrange_norm dx width_t0 thick_t0 glac_idx heights i0 = 1 := by
    unfold elevrange_norm
    rw [if_pos harea, hmin]
    exact div_self (ne_of_gt hdiff)
  unfold icethicknesschange_norm
  rw [if_pos harea, helev1]
  by_cases h20 : 20 < total_area dx width_t0 thick_t0
  · rw [huss_coeffs_gt20 h20]
    apply clip01_eq_one
    norm_num
  · by_cases h5 : 5 < total_area dx width_t0 thick_t0
    · rw [huss_coeffs_mid h5 h20]
      apply clip01_eq_one
      norm_num
    · rw [huss_coeffs_le5 h5]
      apply clip01_eq_one
      norm_num

/-! Claim theorems. -/

/-- C1: for a curve invocation with at least 4 active bins (over a
well-formed state: positive bin spacing, non-negative widths, index set
matching the positive-area mask, distinct extremal elevations) in which no
bin's cross-sectional area hits the zero clamp, the sum over all bins of the
applied per-bin volume change (new section minus prior section, times bin
spacing) equals the requested glacier-wide volume change exactly, and the
returned remaining volume change is zero. -/
theorem huss_curve_mass_conservation (fl : Flowline n) (thick_t0 width_t0 : Fin n → ℚ)
    (glac_idx : Finset (Fin n)) (vc : ℚ) (mb heights : Fin n → ℚ)
    (hdx : 0 < fl.dx_meter)
    (hw : ∀ i, 0 ≤ width_t0 i)
    (hcard : 3 < glac_idx.card)
    (hidx : ∀ i, i ∈ glac_idx ↔ 0 < glacier_area fl.dx_meter width_t0 thick_t0 i)
    (helev : finsetMin glac_idx heights < finsetMax glac_idx heights)
    (hnoclamp : ∀ i, 0 ≤ fl.sect i +
      bin_volumechange fl.dx_meter width_t0 thick_t0 glac_idx vc mb heights i / fl.dx_meter) :
    (∑ i, ((curveHuss fl fl.sect thick_t0 width_t0 glac_idx vc mb heights).1.sect i -
        fl.sect i) * fl.dx_meter) = vc ∧
    (curveHuss fl fl.sect thick_t0 width_t0 glac_idx vc mb heights).2.2 = 0 := by
  have hdxne : fl.dx_meter ≠ 0 := ne_of_gt hdx
  have harea0 : ∀ i, 0 ≤ glacier_area fl.dx_meter width_t0 thick_t0 i := by
    intro i
    unfold glacier_area
    split_ifs
    · exact le_refl 0
    · exact mul_nonneg (hw i) (le_of_lt hdx)
  have hne : glac_idx.Nonempty := Finset.card_pos.mp (by omega)
  obtain ⟨i0, hi0mem, hi0⟩ := Finset.exists_mem_eq_inf' hne heights
  have hminval : heights i0 = finsetMin glac_idx heights := by
    unfold finsetMin
    rw [dif_pos hne]
    exact hi0.symm
  have hareai0 : 0 < glacier_area fl.dx_meter width_t0 thick_t0 i0 := (hidx i0).mp hi0mem
  have hnorm1 : icethicknesschange_norm fl.dx_meter width_t0 thick_t0 glac_idx heights i0 = 1 :=
    icethicknesschange_norm_at_min _ _ _ _ _ _ hareai0 hminval helev
  have hSpos : 0 < ∑ j, glacier_area fl.dx_meter width_t0 thick_t0 j *
      icethicknesschange_norm fl.dx_meter width_t0 thick_t0 glac_idx heights j := by
    apply Finset.sum_pos'
    · intro i _
      exact mul_nonneg (harea0 i) (icethicknesschange_norm_nonneg _ _ _ _ _ _)
    · exact ⟨i0, Finset.mem_univ i0, by rw [hnorm1, mul_one]; exact hareai0⟩
  have key : ∀ i, bin_volumechange fl.dx_meter width_t0 thick_t0 glac_idx vc mb heights i =
      (vc / ∑ j, glacier_area fl.dx_meter width_t0 thick_t0 j *
        icethicknesschange_norm fl.dx_meter width_t0 thick_t0 glac_idx heights j) *
      (glacier_area fl.dx_meter width_t0 thick_t0 i *
        icethicknesschange_norm fl.dx_meter width_t0 thick_t0 glac_idx heights i) := by
    intro i
    unfold bin_volumechange fs_huss
    rw [if_pos hcard]
    ring
  have hsum : (∑ i, bin_volumechange fl.dx_meter width_t0 thick_t0 glac_idx vc mb heights i)
      = vc := by
    rw [Finset.sum_congr rfl fun i _ => key i, ← Finset.mul_sum]
    exact div_mul_cancel₀ vc (ne_of_gt hSpos)
  have happ : ∀ i, ((curve_fl1 fl thick_t0 width_t0 glac_idx vc mb heights).sect i -
      fl.sect i) * fl.dx_meter =
      bin_volumechange fl.dx_meter width_t0 thick_t0 glac_idx vc mb heights i := by
    intro i
    show (max (fl.sect i +
        bin_volumechange fl.dx_meter width_t0 thick_t0 glac_idx vc mb heights i / fl.dx_meter) 0 -
      fl.sect i) * fl.dx_meter = _
    rw [max_eq_left (hnoclamp i)]
    have hstep : fl.sect i +
        bin_volumechange fl.dx_meter width_t0 thick_t0 glac_idx vc mb heights i / fl.dx_meter -
        fl.sect i =
        bin_volumechange fl.dx_meter width_t0 thick_t0 glac_idx vc mb heights i / fl.dx_meter := by
      ring
    rw [hstep, div_mul_cancel₀ _ hdxne]
  constructor
  · show (∑ i, ((curve_fl1 fl thick_t0 width_t0 glac_idx vc mb heights).sect i -
        fl.sect i) * fl.dx_meter) = vc
    rw [Finset.sum_congr rfl fun i _ => happ i]
    exact hsum
  · show curve_remaining fl fl.sect thick_t0 width_t0 glac_idx vc mb heights = 0
    unfold curve_remaining
    apply Finset.sum_eq_zero
    intro i _
    have h2 : (curve_fl1 fl thick_t0 width_t0 glac_idx vc mb heights).sect i * fl.dx_meter -
        fl.sect i * fl.dx_meter =
        bin_volumechange fl.dx_meter width_t0 thick_t0 glac_idx vc mb heights i := by
      have h3 : ((curve_fl1 fl thick_t0 width_t0 glac_idx vc mb heights).sect i -
          fl.sect i) * fl.dx_meter =
          (curve_fl1 fl thick_t0 width_t0 glac_idx vc mb heights).sect i * fl.dx_meter -
          fl.sect i * fl.dx_meter := by
        ring
      rw [← h3]
      exact happ i
    rw [h2, sub_self, tol0_zero]

/-- Witness for C1 on a 4-bin glacier with unit widths, requested volume
change −1, where no bin is clamped. -/
theorem huss_curve_mass_conservation_witness :
    (0 < cons4_fl.dx_meter) ∧
    (∀ i, 0 ≤ cons4_fl.widths_m i) ∧
    (3 < (activeIdx cons4_fl).card) ∧
    (∀ i, i ∈ activeIdx cons4_fl ↔
      0 < glacier_area cons4_fl.dx_meter cons4_fl.widths_m cons4_fl.thick i) ∧
    (finsetMin (activeIdx cons4_fl) cons4_fl.surface_h <
      finsetMax (activeIdx cons4_fl) cons4_fl.surface_h) ∧
    (∀ i, 0 ≤ cons4_fl.sect i +
      bin_volumechange cons4_fl.dx_meter cons4_fl.widths_m cons4_fl.thick (activeIdx cons4_fl)
        (-1) (fun _ => 0) cons4_fl.surface_h i / cons4_fl.dx_meter) ∧
    ((∑ i, ((curveHuss cons4_fl cons4_fl.sect cons4_fl.thick cons4_fl.widths_m
        (activeIdx cons4_fl) (-1) (fun _ => 0) cons4_fl.surface_h).1.sect i -
        cons4_fl.sect i) * cons4_fl.dx_meter) = -1 ∧
      (curveHuss cons4_fl cons4_fl.sect cons4_fl.thick cons4_fl.widths_m
        (activeIdx cons4_fl) (-1) (fun _ => 0) cons4_fl.surface_h).2.2 = 0) :=
  ⟨by decide, by decide, by decide, by decide, by decide, by decide,
   huss_curve_mass_conservation cons4_fl cons4_fl.thick cons4_fl.widths_m (activeIdx cons4_fl)
     (-1) (fun _ => 0) cons4_fl.surface_h (by decide) (by decide) (by decide) (by decide)
     (by decide) (by decide)⟩

/-- C2: the `(gamma, a, b, c)` coefficients are selected solely from the total
active-bin area `A = total_area` (the sum of width × bin spacing over bins with
nonzero prior thickness): `A > 20` selects `(6, −0.02, 0.12, 0)`;
`5 < A ≤ 20` selects `(4, −0.05, 0.19, 0.01)`; `A ≤ 5` selects
`(2, −0.30, 0.60, 0.09)`; in particular the boundary values `A = 20` and
`A = 5` deterministically select the middle and the last triple. -/
theorem huss_coefficient_selection (dx : ℚ) (width_t0 thick_t0 : Fin n → ℚ) :
    (20 < total_area dx width_t0 thick_t0 →
      huss_coeffs (total_area dx width_t0 thick_t0) = (6, -0.02, 0.12, 0)) ∧
    (5 < total_area dx width_t0 thick_t0 ∧ total_area dx width_t0 thick_t0 ≤ 20 →
      huss_coeffs (total_area dx width_t0 thick_t0) = (4, -0.05, 0.19, 0.01)) ∧
    (total_area dx width_t0 thick_t0 ≤ 5 →
      huss_coeffs (total_area dx width_t0 thick_t0) = (2, -0.30, 0.60, 0.09)) ∧
    huss_coeffs 20 = (4, -0.05, 0.19, 0.01) ∧
    huss_coeffs 5 = (2, -0.30, 0.60, 0.09) := by
  refine ⟨fun h => ?_, fun h => ?_, fun h => ?_, by decide, by decide⟩
  · rw [huss_coeffs, if_pos h]
  · rw [huss_coeffs, if_neg (not_lt.mpr h.2), if_pos h.1]
  · rw [huss_coeffs, if_neg (not_lt.mpr (by linarith)), if_neg (not_lt.mpr h)]

/-- Witness for C2 at a concrete one-bin glacier of area 25. -/
theorem huss_coefficient_selection_witness :
    (20 < total_area (n := 1) 1 (fun _ => 25) (fun _ => 1)) ∧
    huss_coeffs (total_area (n := 1) 1 (fun _ => 25) (fun _ => 1)) =
      (6, -0.02, 0.12, 0) :=
  ⟨by decide, (huss_coefficient_selection 1 (fun _ => 25) (fun _ => 1)).1 (by decide)⟩

/-- C8: invoking the yearly geometry update on a glacier with positive volume
and non-negative sections, with an all-zero per-bin mass-balance field, leaves
the flowline state unchanged, the remaining volume change of the single curve
pass is zero (so the retreat loop guard is false and the loop is not entered),
and the per-bin thickness change is identically zero (so the advance loop
guard is false and that loop is not entered either) — for any loop fuel. -/
theorem zero_forcing_leaves_state_unchanged (fuelR fuelA : ℕ) (fl : Flowline n)
    (mb : Fin n → ℚ) (gii : Finset (Fin n)) (heights : Fin n → ℚ) (sec_in_year : ℚ)
    (hmb : ∀ i, mb i = 0)
    (hsec : ∀ i, 0 ≤ fl.sect i)
    (htotal : 0 < ∑ i, fl.sect i * fl.dx_meter) :
    massredistributionHuss fuelR fuelA fl mb gii heights sec_in_year = some fl ∧
    (curveHuss fl fl.sect fl.thick fl.widths_m (activeIdx fl)
      (∑ i, mb i * sec_in_year * glacier_area fl.dx_meter fl.widths_m fl.thick i)
      mb heights).2.2 = 0 ∧
    ∀ i, (curveHuss fl fl.sect fl.thick fl.widths_m (activeIdx fl)
      (∑ i, mb i * sec_in_year * glacier_area fl.dx_meter fl.widths_m fl.thick i)
      mb heights).2.1 i = 0 := by
  have hvc : (∑ i, mb i * sec_in_year * glacier_area fl.dx_meter fl.widths_m fl.thick i)
      = 0 := by
    apply Finset.sum_eq_zero
    intro i _
    rw [hmb i]
    ring
  have hbvc : ∀ i, bin_volumechange fl.dx_meter fl.widths_m fl.thick (activeIdx fl)
      (∑ i, mb i * sec_in_year * glacier_area fl.dx_meter fl.widths_m fl.thick i)
      mb heights i = 0 := by
    intro i
    unfold bin_volumechange fs_huss
    split_ifs with h
    · rw [hvc]
      simp
    · rw [hmb i, zero_mul]
  have hnewsect : curve_newsect fl fl.thick fl.widths_m (activeIdx fl)
      (∑ i, mb i * sec_in_year * glacier_area fl.dx_meter fl.widths_m fl.thick i)
      mb heights = fl.sect := by
    funext i
    unfold curve_newsect
    rw [hbvc i, zero_div, add_zero]
    exact max_eq_left (hsec i)
  have hfl1 : curve_fl1 fl fl.thick fl.widths_m (activeIdx fl)
      (∑ i, mb i * sec_in_year * glacier_area fl.dx_meter fl.widths_m fl.thick i)
      mb heights = fl := by
    unfold curve_fl1
    rw [hnewsect]
  have hic : ∀ i, (curveHuss fl fl.sect fl.thick fl.widths_m (activeIdx fl)
      (∑ i, mb i * sec_in_year * glacier_area fl.dx_meter fl.widths_m fl.thick i)
      mb heights).2.1 i = 0 := by
    intro i
    show (curve_fl1 fl fl.thick fl.widths_m (activeIdx fl)
      (∑ i, mb i * sec_in_year * glacier_area fl.dx_meter fl.widths_m fl.thick i)
      mb heights).thick i - fl.thick i = 0
    rw [hfl1, sub_self]
  have hrem : (curveHuss fl fl.sect fl.thick fl.widths_m (activeIdx fl)
      (∑ i, mb i * sec_in_year * glacier_area fl.dx_meter fl.widths_m fl.thick i)
      mb heights).2.2 = 0 := by
    show curve_remaining fl fl.sect fl.thick fl.widths_m (activeIdx fl)
      (∑ i, mb i * sec_in_year * glacier_area fl.dx_meter fl.widths_m fl.thick i)
      mb heights = 0
    unfold curve_remaining
    apply Finset.sum_eq_zero
    intro i _
    rw [hbvc i, hfl1, sub_self, sub_zero, tol0_zero]
  refine ⟨?_, hrem, hic⟩
  have hguard : -(∑ i, mb i * sec_in_year *
      glacier_area fl.dx_meter fl.widths_m fl.thick i) < ∑ i, fl.sect i * fl.dx_meter := by
    rw [hvc]
    simpa using htotal
  have hfst : (curveHuss fl fl.sect fl.thick fl.widths_m (activeIdx fl)
      (∑ i, mb i * sec_in_year * glacier_area fl.dx_meter fl.widths_m fl.thick i)
      mb heights).1 = fl := hfl1
  unfold massredistributionHuss
  rw [if_pos hguard, hfst, hrem]
  have hret : retreatLoop fuelR fl fl.thick heights
      (curveHuss fl fl.sect fl.thick fl.widths_m (activeIdx fl)
        (∑ i, mb i * sec_in_year * glacier_area fl.dx_meter fl.widths_m fl.thick i)
        mb heights).2.1 0 =
      some (fl, (curveHuss fl fl.sect fl.thick fl.widths_m (activeIdx fl)
        (∑ i, mb i * sec_in_year * glacier_area fl.dx_meter fl.widths_m fl.thick i)
        mb heights).2.1, 0) := by
    cases fuelR with
    | zero =>
      unfold retreatLoop
      rw [if_neg (lt_irrefl 0)]
    | succ f =>
      unfold retreatLoop
      rw [if_neg (lt_irrefl 0)]
  rw [hret]
  show (advanceLoop fuelA fl
      (curveHuss fl fl.sect fl.thick fl.widths_m (activeIdx fl)
        (∑ i, mb i * sec_in_year * glacier_area fl.dx_meter fl.widths_m fl.thick i)
        mb heights).2.1 heights gii 0).map (fun r3 => r3.1) = some fl
  have hno : ¬∃ i, icethickness_advancethreshold <
      (curveHuss fl fl.sect fl.thick fl.widths_m (activeIdx fl)
        (∑ i, mb i * sec_in_year * glacier_area fl.dx_meter fl.widths_m fl.thick i)
        mb heights).2.1 i := by
    rintro ⟨i, hi⟩
    rw [hic i] at hi
    norm_num [icethickness_advancethreshold] at hi
  have hadv : advanceLoop fuelA fl
      (curveHuss fl fl.sect fl.thick fl.widths_m (activeIdx fl)
        (∑ i, mb i * sec_in_year * glacier_area fl.dx_meter fl.widths_m fl.thick i)
        mb heights).2.1 heights gii 0 =
      some (fl, (curveHuss fl fl.sect fl.thick fl.widths_m (activeIdx fl)
        (∑ i, mb i * sec_in_year * glacier_area fl.dx_meter fl.widths_m fl.thick i)
        mb heights).2.1, 0) := by
    cases fuelA with
    | zero =>
      unfold advanceLoop
      rw [if_neg hno]
    | succ f =>
      unfold advanceLoop
      rw [if_neg hno]
  rw [hadv]
  rfl

/-- Witness for C8 on a concrete 2-bin glacier of positive volume. -/
theorem zero_forcing_leaves_state_unchanged_witness :
    (∀ i, (fun _ : Fin 2 => (0 : ℚ)) i = 0) ∧
    (∀ i, 0 ≤ zero2_fl.sect i) ∧
    (0 < ∑ i, zero2_fl.sect i * zero2_fl.dx_meter) ∧
    (massredistributionHuss 1 1 zero2_fl (fun _ => 0) ∅ zero2_fl.surface_h 1 = some zero2_fl ∧
    (curveHuss zero2_fl zero2_fl.sect zero2_fl.thick zero2_fl.widths_m (activeIdx zero2_fl)
      (∑ i, (fun _ : Fin 2 => (0 : ℚ)) i * 1 *
        glacier_area zero2_fl.dx_meter zero2_fl.widths_m zero2_fl.thick i)
      (fun _ => 0) zero2_fl.surface_h).2.2 = 0 ∧
    ∀ i, (curveHuss zero2_fl zero2_fl.sect zero2_fl.thick zero2_fl.widths_m (activeIdx zero2_fl)
      (∑ i, (fun _ : Fin 2 => (0 : ℚ)) i * 1 *
        glacier_area zero2_fl.dx_meter zero2_fl.widths_m zero2_fl.thick i)
      (fun _ => 0) zero2_fl.surface_h).2.1 i = 0) :=
  ⟨by decide, by decide, by decide,
   zero_forcing_leaves_state_unchanged 1 1 zero2_fl (fun _ => 0) ∅ zero2_fl.surface_h 1
     (by decide) (by decide) (by decide)⟩

/-- C3 (code bug): when the computed volume loss meets or exceeds the total
glacier volume, `_massredistributionHuss` does *not* zero the glacier: the
guard of line 449 fails and the function returns with the flowline state
untouched, although the comment on lines 446-447 claims area and thickness
were already set to zero.  Here the loss is 20 m³ against a volume of 5 m³,
and both bins keep their nonzero area and thickness. -/
theorem total_loss_leaves_glacier_unchanged :
    massredistributionHuss 1 1 loss2_fl loss2_mb ∅ loss2_fl.surface_h 1 = some loss2_fl ∧
    loss2_fl.sect 0 ≠ 0 ∧ loss2_fl.thick 0 ≠ 0 ∧
    ¬(-(∑ i, loss2_mb i * 1 * glacier_area loss2_fl.dx_meter loss2_fl.widths_m loss2_fl.thick i) <
        ∑ i, loss2_fl.sect i * loss2_fl.dx_meter) := by
  decide

/-- C4: for every configuration of bin elevations the normalized
ice-thickness-change curve value of every bin lies in `[0, 1]` after the
clipping step. -/
theorem huss_curve_norm_in_unit_interval (dx : ℚ) (width_t0 thick_t0 : Fin n → ℚ)
    (glac_idx : Finset (Fin n)) (heights : Fin n → ℚ) (i : Fin n) :
    0 ≤ icethicknesschange_norm dx width_t0 thick_t0 glac_idx heights i ∧
      icethicknesschange_norm dx width_t0 thick_t0 glac_idx heights i ≤ 1 :=
  ⟨icethicknesschange_norm_nonneg dx width_t0 thick_t0 glac_idx heights i,
   icethicknesschange_norm_le_one dx width_t0 thick_t0 glac_idx heights i⟩

/-- C6: on the synthetic 5-bin glacier `retreat5_fl`, a requested volume loss
of 15 m³ (exceeding the 2 m³ the two lowest bins can supply) drives the curve
into retreat (`remaining < 0`); the retreat loop terminates within the given
fuel (a `some` result), its final remaining volume change is exactly zero, and
the two emptied bins end with area, thickness and width all zero. -/
theorem retreat_loop_five_bin_converges :
    retreat5_c1.2.2 < 0 ∧
    (retreat5_res.map fun r => r.2.2).getD 1 = 0 ∧
    (retreat5_res.map fun r => r.1.sect 3).getD 1 = 0 ∧
    (retreat5_res.map fun r => r.1.sect 4).getD 1 = 0 ∧
    (retreat5_res.map fun r => r.1.thick 3).getD 1 = 0 ∧
    (retreat5_res.map fun r => r.1.thick 4).getD 1 = 0 ∧
    (retreat5_res.map fun r => r.1.widths_m 3).getD 1 = 0 ∧
    (retreat5_res.map fun r => r.1.widths_m 4).getD 1 = 0 := by
  decide

/-- C5 counterexample: a full yearly redistribution on `adv6_fl` makes the
advance loop colonize bin 4, whose surface elevation (20 m) lies strictly
below the lowest elevation of the initial-extent domain (30 m): the bin starts
with zero area and ends with positive cross-sectional area, so the advance
propagator does assign positive area below the initial extent. -/
theorem advance_colonizes_below_initial_extent :
    ((massredistributionHuss 1 2 adv6_fl adv6_mb adv6_gii adv6_fl.surface_h 1).map
        fun f => f.sect 4).getD 0 > 0 ∧
    adv6_fl.surface_h 4 < finsetMin adv6_gii adv6_fl.surface_h ∧
    (4 : Fin 6) ∉ adv6_gii ∧ adv6_fl.sect 4 = 0 := by
  decide

theorem adv_ic_ne_zero {ic0 : Fin n → ℚ} {i : Fin n} (h : adv_ic ic0 i ≠ 0) :
    icethickness_advancethreshold < ic0 i ∧ adv_ic ic0 i = ic0 i := by
  unfold adv_ic at h ⊢
  by_cases hle : ic0 i ≤ icethickness_advancethreshold
  · rw [if_pos hle] at h
    exact absurd rfl h
  · exact ⟨lt_of_not_le hle, if_neg hle⟩

theorem adv_fl1_sect (fl : Flowline n) (ic0 : Fin n → ℚ) (j : Fin n)
    (h : j ∉ adv_idx ic0) : (adv_fl1 fl ic0).sect j = fl.sect j := by
  show (if j ∈ adv_idx ic0 then
      (fl.thick j - (adv_ic ic0 j - icethickness_advancethreshold)) * fl.bedw j
    else fl.sect j) = fl.sect j
  exact if_neg h

/-- The thickness capping of the advance step does not change which bins are
active, provided thickness changes live on active bins and the capped
thickness stays nonzero. -/
theorem adv_gidx_eq_active (fl : Flowline n) (ic0 : Fin n → ℚ)
    (hbedw : ∀ i, 0 < fl.bedw i)
    (hic : ∀ i, ic0 i ≠ 0 → fl.thick i ≠ 0)
    (hcap : ∀ i, icethickness_advancethreshold < ic0 i →
      fl.thick i - (ic0 i - icethickness_advancethreshold) ≠ 0) :
    adv_gidx fl ic0 = activeIdx fl := by
  unfold adv_gidx activeIdx
  ext i
  simp only [Finset.mem_filter, Finset.mem_univ, true_and]
  have hbne : fl.bedw i ≠ 0 := ne_of_gt (hbedw i)
  by_cases hmem : i ∈ adv_idx ic0
  · obtain ⟨h5, hval⟩ := adv_ic_ne_zero (Finset.mem_filter.mp hmem).2
    have hsect1 : (adv_fl1 fl ic0).sect i =
        (fl.thick i - (adv_ic ic0 i - icethickness_advancethreshold)) * fl.bedw i := by
      show (if i ∈ adv_idx ic0 then
          (fl.thick i - (adv_ic ic0 i - icethickness_advancethreshold)) * fl.bedw i
        else fl.sect i) = _
      exact if_pos hmem
    have ht1 : (adv_fl1 fl ic0).thick i =
        fl.thick i - (adv_ic ic0 i - icethickness_advancethreshold) := by
      show (adv_fl1 fl ic0).sect i / fl.bedw i = _
      rw [hsect1]
      exact mul_div_cancel_right₀ _ hbne
    rw [ht1, hval]
    have hpos5 : (0 : ℚ) < icethickness_advancethreshold := by
      norm_num [icethickness_advancethreshold]
    exact ⟨fun _ => hic i (ne_of_gt (lt_trans hpos5 h5)), fun _ => hcap i h5⟩
  · have ht1 : (adv_fl1 fl ic0).thick i = fl.thick i := by
      show (adv_fl1 fl ic0).sect i / fl.bedw i = fl.sect i / fl.bedw i
      rw [adv_fl1_sect fl ic0 i hmem]
    rw [ht1]

/-- A bin strictly below the colonization target elevation lies strictly below
every active bin, hence carries no ice, no section, and no thickness
change. -/
theorem below_target_zero (fl : Flowline n) (ic0 : Fin n → ℚ) (j : Fin n)
    (hbedw : ∀ i, 0 < fl.bedw i)
    (hic : ∀ i, ic0 i ≠ 0 → fl.thick i ≠ 0)
    (hcap : ∀ i, icethickness_advancethreshold < ic0 i →
      fl.thick i - (ic0 i - icethickness_advancethreshold) ≠ 0)
    (h2 : (adv_below0 fl ic0).Nonempty)
    (hj : fl.surface_h j < adv_target fl ic0) :
    fl.thick j = 0 ∧ fl.sect j = 0 ∧ j ∉ adv_idx ic0 := by
  have htlt : adv_target fl ic0 < adv_minelev fl ic0 := by
    unfold adv_target finsetMax
    rw [dif_pos h2, Finset.sup'_lt_iff]
    intro b hb
    exact (Finset.mem_filter.mp hb).2
  have hjmin : fl.surface_h j < adv_minelev fl ic0 := lt_trans hj htlt
  have hth : fl.thick j = 0 := by
    by_contra hne
    have hjmem : j ∈ adv_gidx fl ic0 := by
      rw [adv_gidx_eq_active fl ic0 hbedw hic hcap]
      exact Finset.mem_filter.mpr ⟨Finset.mem_univ j, hne⟩
    have hle : adv_minelev fl ic0 ≤ fl.surface_h j := by
      unfold adv_minelev finsetMin
      rw [dif_pos ⟨j, hjmem⟩]
      exact Finset.inf'_le _ hjmem
    linarith
  refine ⟨hth, ?_, ?_⟩
  · have hdiv : fl.sect j / fl.bedw j = 0 := hth
    rcases div_eq_zero_iff.mp hdiv with h | h
    · exact h
    · exact absurd h (ne_of_gt (hbedw j))
  · intro hmem
    have h5 := (adv_ic_ne_zero (Finset.mem_filter.mp hmem).2).1
    have hpos5 : (0 : ℚ) < icethickness_advancethreshold := by
      norm_num [icethickness_advancethreshold]
    exact hic j (ne_of_gt (lt_trans hpos5 h5)) hth

theorem adv_fl3_sect_of_ne (fl : Flowline n) (ic0 heights : Fin n → ℚ)
    (gii : Finset (Fin n)) (b j : Fin n) (hj : j ≠ b) :
    (adv_fl3 fl ic0 heights gii b).sect j = (adv_fl1 fl ic0).sect j := by
  have h2 : (adv_fl2 fl ic0 b).sect j = (adv_fl1 fl ic0).sect j := by
    show (if j = b then adv_volume fl ic0 / fl.dx_meter else (adv_fl1 fl ic0).sect j) = _
    exact if_neg hj
  cases htv : adv_tavg fl ic0 heights gii b with
  | none => simp only [adv_fl3, htv]; exact h2
  | some t =>
    simp only [adv_fl3, htv]
    split_ifs with hc
    · show (if j = b then t * fl.bedw b else (adv_fl2 fl ic0 b).sect j) = _
      rw [if_neg hj]
      exact h2
    · exact h2

theorem bin_volumechange_area_zero (dx : ℚ) (width_t0 thick_t0 : Fin n → ℚ)
    (glac_idx : Finset (Fin n)) (vc : ℚ) (mb heights : Fin n → ℚ) (i : Fin n)
    (h : glacier_area dx width_t0 thick_t0 i = 0) :
    bin_volumechange dx width_t0 thick_t0 glac_idx vc mb heights i = 0 := by
  unfold bin_volumechange
  split_ifs
  · rw [h, mul_zero]
  · rw [h, mul_zero]

theorem curve_fl1_sect_zero (fl : Flowline n) (thick_t0 width_t0 : Fin n → ℚ)
    (glac_idx : Finset (Fin n)) (vc : ℚ) (mb heights : Fin n → ℚ) (j : Fin n)
    (h0 : fl.sect j = 0) (harea : glacier_area fl.dx_meter width_t0 thick_t0 j = 0) :
    (curve_fl1 fl thick_t0 width_t0 glac_idx vc mb heights).sect j = 0 := by
  show max (fl.sect j +
      bin_volumechange fl.dx_meter width_t0 thick_t0 glac_idx vc mb heights j / fl.dx_meter)
    0 = 0
  rw [h0, bin_volumechange_area_zero fl.dx_meter width_t0 thick_t0 glac_idx vc mb heights j
    harea, zero_div, add_zero, max_self]

/-- C5 (amended): in each advance iteration, cross-sectional area is only ever
assigned to the single adjacent downslope bin — the bin of maximal surface
elevation strictly below the current glacier minimum (`adv_target`), which the
initial-extent mask does not constrain: every bin whose elevation lies
strictly below that target keeps zero area through the whole iteration.  And
whenever the iteration reaches the final redistribution check with positive
advance volume remaining but no bin below the pre-colonization glacier
minimum, the section array is reverted to its pre-advance snapshot
(`sect := fl.sect`) and the excess advance volume is discarded (returned as
zero). -/
theorem advance_assigns_only_adjacent_bin (fl : Flowline n) (ic0 heights : Fin n → ℚ)
    (gii : Finset (Fin n)) (rem : ℚ)
    (hbedw : ∀ i, 0 < fl.bedw i)
    (hic : ∀ i, ic0 i ≠ 0 → fl.thick i ≠ 0)
    (hcap : ∀ i, icethickness_advancethreshold < ic0 i →
      fl.thick i - (ic0 i - icethickness_advancethreshold) ≠ 0) :
    (∀ j, fl.surface_h j < adv_target fl ic0 →
      ∀ r ∈ advanceStep fl ic0 heights gii rem, r.1.sect j = 0) ∧
    (∀ b o, (adv_gidx fl ic0).Nonempty → (adv_below0 fl ic0).Nonempty →
      adv_bin2add fl ic0 = some b → adv_tavgRes fl ic0 heights gii b = some o →
      0 < adv_av2 fl ic0 heights gii b →
      (Finset.univ.filter fun j => 0 < adv_garea_t1 fl ic0 j).Nonempty →
      adv_below2 fl ic0 heights = ∅ →
      advanceStep fl ic0 heights gii rem =
        some ({ adv_fl3 fl ic0 heights gii b with sect := fl.sect },
          adv_ic ic0, rem, 0)) := by
  constructor
  · intro j hj r hr
    rw [Option.mem_def] at hr
    unfold advanceStep at hr
    by_cases h1 : (adv_gidx fl ic0).Nonempty
    swap
    · rw [if_neg h1] at hr
      exact Option.noConfusion hr
    rw [if_pos h1] at hr
    by_cases h2 : (adv_below0 fl ic0).Nonempty
    swap
    · rw [if_neg h2] at hr
      exact Option.noConfusion hr
    rw [if_pos h2] at hr
    obtain ⟨hth0, hsect0, hnadv⟩ := below_target_zero fl ic0 j hbedw hic hcap h2 hj
    split at hr
    next =>
      exact Option.noConfusion hr
    next b hb =>
      have hb2 : (List.finRange n).find?
          (fun i => decide (fl.surface_h i = adv_target fl ic0)) = some b := hb
      have hjb : j ≠ b := by
        have hfind := List.find?_some hb2
        have hpb : fl.surface_h b = adv_target fl ic0 := of_decide_eq_true hfind
        intro hjeq
        rw [hjeq, hpb] at hj
        exact lt_irrefl _ hj
      have hsect3 : (adv_fl3 fl ic0 heights gii b).sect j = 0 := by
        rw [adv_fl3_sect_of_ne fl ic0 heights gii b j hjb, adv_fl1_sect fl ic0 j hnadv]
        exact hsect0
      split at hr
      next =>
        exact Option.noConfusion hr
      next o ho =>
        by_cases hav : 0 < adv_av2 fl ic0 heights gii b
        swap
        · rw [if_neg hav] at hr
          rw [← Option.some.inj hr]
          exact hsect3
        rw [if_pos hav] at hr
        by_cases hg : (Finset.univ.filter fun j => 0 < adv_garea_t1 fl ic0 j).Nonempty
        swap
        · rw [if_neg hg] at hr
          exact Option.noConfusion hr
        rw [if_pos hg] at hr
        by_cases hbe : adv_below2 fl ic0 heights = ∅
        · rw [if_pos hbe] at hr
          rw [← Option.some.inj hr]
          exact hsect0
        · rw [if_neg hbe] at hr
          rw [← Option.some.inj hr]
          show (adv_redist fl ic0 heights gii b rem).1.sect j = 0
          have hth3 : (adv_fl3 fl ic0 heights gii b).thick j = 0 := by
            show (adv_fl3 fl ic0 heights gii b).sect j /
              (adv_fl3 fl ic0 heights gii b).bedw j = 0
            rw [hsect3, zero_div]
          have harea3 : glacier_area (adv_fl3 fl ic0 heights gii b).dx_meter
              (adv_fl3 fl ic0 heights gii b).widths_m
              (adv_fl3 fl ic0 heights gii b).thick j = 0 := by
            unfold glacier_area
            rw [if_pos hth3]
          exact curve_fl1_sect_zero (adv_fl3 fl ic0 heights gii b)
            (adv_fl3 fl ic0 heights gii b).thick (adv_fl3 fl ic0 heights gii b).widths_m
            (activeIdx (adv_fl3 fl ic0 heights gii b)) (adv_av2 fl ic0 heights gii b)
            (fun i => if i ∈ activeIdx (adv_fl3 fl ic0 heights gii b) then
              rem / ∑ k, (adv_fl3 fl ic0 heights gii b).widths_m k *
                (adv_fl3 fl ic0 heights gii b).dx_meter else 0)
            heights j hsect3 harea3
  · intro b o h1 h2 hb ho hav hg hbe
    unfold advanceStep
    rw [if_pos h1, if_pos h2]
    split
    next heq =>
      rw [hb] at heq
      exact Option.noConfusion heq
    next b' heq =>
      rw [hb] at heq
      obtain rfl : b = b' := Option.some.inj heq
      split
      next heq2 =>
        rw [ho] at heq2
        exact Option.noConfusion heq2
      next o' heq2 =>
        rw [if_pos hav, if_pos hg, if_pos hbe]

/-- Witness for C5's amended theorem on the concrete 6-bin glacier with a
thickness-change field exceeding the advance threshold on bins 2 and 3. -/
theorem advance_assigns_only_adjacent_bin_witness :
    (∀ i, 0 < adv6_fl.bedw i) ∧
    (∀ i, (![0, 0, 80/7, 180/7, 0, 0] : Fin 6 → ℚ) i ≠ 0 → adv6_fl.thick i ≠ 0) ∧
    (∀ i, icethickness_advancethreshold < (![0, 0, 80/7, 180/7, 0, 0] : Fin 6 → ℚ) i →
      adv6_fl.thick i - ((![0, 0, 80/7, 180/7, 0, 0] : Fin 6 → ℚ) i -
        icethickness_advancethreshold) ≠ 0) ∧
    ((∀ j, adv6_fl.surface_h j < adv_target adv6_fl ![0, 0, 80/7, 180/7, 0, 0] →
      ∀ r ∈ advanceStep adv6_fl ![0, 0, 80/7, 180/7, 0, 0] adv6_fl.surface_h adv6_gii 0,
        r.1.sect j = 0) ∧
    (∀ b o, (adv_gidx adv6_fl ![0, 0, 80/7, 180/7, 0, 0]).Nonempty →
      (adv_below0 adv6_fl ![0, 0, 80/7, 180/7, 0, 0]).Nonempty →
      adv_bin2add adv6_fl ![0, 0, 80/7, 180/7, 0, 0] = some b →
      adv_tavgRes adv6_fl ![0, 0, 80/7, 180/7, 0, 0] adv6_fl.surface_h adv6_gii b = some o →
      0 < adv_av2 adv6_fl ![0, 0, 80/7, 180/7, 0, 0] adv6_fl.surface_h adv6_gii b →
      (Finset.univ.filter fun j =>
        0 < adv_garea_t1 adv6_fl ![0, 0, 80/7, 180/7, 0, 0] j).Nonempty →
      adv_below2 adv6_fl ![0, 0, 80/7, 180/7, 0, 0] adv6_fl.surface_h = ∅ →
      advanceStep adv6_fl ![0, 0, 80/7, 180/7, 0, 0] adv6_fl.surface_h adv6_gii 0 =
        some ({ adv_fl3 adv6_fl ![0, 0, 80/7, 180/7, 0, 0] adv6_fl.surface_h adv6_gii b with
          sect := adv6_fl.sect }, adv_ic ![0, 0, 80/7, 180/7, 0, 0], 0, 0))) :=
  ⟨by decide, by decide, by decide,
   advance_assigns_only_adjacent_bin adv6_fl ![0, 0, 80/7, 180/7, 0, 0] adv6_fl.surface_h
     adv6_gii 0 (by decide) (by decide) (by decide)⟩

/-- C7 (amended): after the yearly steps, the domain-boundary error is raised
if and only if boundary checking is enabled and the terminus (last) bin
thickness exceeds 10 m, and the numerical-instability error is raised if and
only if some bin thickness is non-finite *and* the domain-boundary error was
not raised first (the boundary check runs first and an exception aborts the
function, so it masks the finiteness check). -/
theorem run_until_error_precedence (check : Bool) (thick : List FloatVal)
    (h : thick ≠ []) :
    (run_until_checks check thick = some RunError.boundsError ↔
      (check = true ∧ (thick.getLastD (FloatVal.fin 0)).gt 10 = true)) ∧
    (run_until_checks check thick = some RunError.nanError ↔
      ((thick.any fun v => !v.isfinite) = true ∧
        ¬(check = true ∧ (thick.getLastD (FloatVal.fin 0)).gt 10 = true))) := by
  clear h
  unfold run_until_checks
  by_cases hb : (check && (thick.getLastD (FloatVal.fin 0)).gt 10) = true
  · rw [if_pos hb]
    rw [Bool.and_eq_true] at hb
    refine ⟨iff_of_true rfl hb, iff_of_false (by simp) fun hc => hc.2 hb⟩
  · rw [if_neg hb]
    rw [Bool.and_eq_true] at hb
    by_cases hn : (thick.any fun v => !v.isfinite) = true
    · rw [if_pos hn]
      refine ⟨iff_of_false (by simp) hb, iff_of_true rfl ⟨hn, hb⟩⟩
    · rw [if_neg hn]
      refine ⟨iff_of_false (by simp) hb, iff_of_false (by simp) fun hc => hn hc.1⟩

/-- Witness for C7 at a concrete nonempty thickness list. -/
theorem run_until_error_precedence_witness :
    ([FloatVal.fin 20] ≠ ([] : List FloatVal)) ∧
    ((run_until_checks true [FloatVal.fin 20] = some RunError.boundsError ↔
      (true = true ∧ (([FloatVal.fin 20]).getLastD (FloatVal.fin 0)).gt 10 = true)) ∧
    (run_until_checks true [FloatVal.fin 20] = some RunError.nanError ↔
      ((([FloatVal.fin 20]).any fun v => !v.isfinite) = true ∧
        ¬(true = true ∧ (([FloatVal.fin 20]).getLastD (FloatVal.fin 0)).gt 10 = true)))) :=
  ⟨by decide, run_until_error_precedence true [FloatVal.fin 20] (by decide)⟩

/-- C7 counterexample: with boundary checking enabled and a terminus thickness
of `+inf`, a non-finite bin thickness is present but the error raised is the
domain-boundary `RuntimeError`, not the numerical-instability
`FloatingPointError` — the claimed "numerical error iff non-finite" fails. -/
theorem run_until_inf_masked_by_bounds :
    run_until_checks true [FloatVal.inf] = some RunError.boundsError ∧
    (([FloatVal.inf] : List FloatVal).any fun v => !v.isfinite) = true ∧
    run_until_checks true [FloatVal.inf] ≠ some RunError.nanError := by
  decide

/-- C9: whatever initial year `y0` (and flags) the constructor is given, the
`super().__init__` stores it but line 68 unconditionally overwrites the
attribute with `self.y0 = 0`; the supplied argument never sets the year
origin. -/
theorem init_discards_y0 :
    ∀ (y0 : ℚ) (oa : Bool) (sy cy : ℤ),
      (MassRedistributionCurveModel_init y0 oa sy cy).y0 = 0 :=
  fun _ _ _ _ => rfl

/-- C10: with at most 3 active bins the curve function takes the degenerate
branch: its whole result (state update, thickness-change field and remaining
volume change) is identical for any two values of the requested glacier-wide
volume change, and the per-bin volume change is the supplied mass balance
times the bin area. -/
theorem degenerate_branch_ignores_volumechange (fl : Flowline n)
    (section_t0 thick_t0 width_t0 : Fin n → ℚ) (glac_idx : Finset (Fin n))
    (vc1 vc2 : ℚ) (mb heights : Fin n → ℚ) (hcard : glac_idx.card ≤ 3) :
    curveHuss fl section_t0 thick_t0 width_t0 glac_idx vc1 mb heights =
      curveHuss fl section_t0 thick_t0 width_t0 glac_idx vc2 mb heights ∧
    ∀ i, bin_volumechange fl.dx_meter width_t0 thick_t0 glac_idx vc1 mb heights i =
      mb i * glacier_area fl.dx_meter width_t0 thick_t0 i := by
  have hfun : ∀ vc, bin_volumechange fl.dx_meter width_t0 thick_t0 glac_idx vc mb heights =
      fun i => mb i * glacier_area fl.dx_meter width_t0 thick_t0 i := by
    intro vc
    funext i
    unfold bin_volumechange
    rw [if_neg (not_lt.mpr hcard)]
  have hns : curve_newsect fl thick_t0 width_t0 glac_idx vc1 mb heights =
      curve_newsect fl thick_t0 width_t0 glac_idx vc2 mb heights := by
    funext i
    unfold curve_newsect
    rw [hfun vc1, hfun vc2]
  constructor
  · unfold curveHuss
    simp only [curve_remaining, curve_fl1, hns, hfun]
  · intro i
    rw [hfun vc1]

/-- Witness for C10 on a concrete 2-bin glacier with two different requested
volume changes. -/
theorem degenerate_branch_ignores_volumechange_witness :
    ((Finset.univ : Finset (Fin 2)).card ≤ 3) ∧
    (curveHuss zero2_fl zero2_fl.sect zero2_fl.thick zero2_fl.widths_m
        (Finset.univ : Finset (Fin 2)) 7 (fun _ => -1) zero2_fl.surface_h =
      curveHuss zero2_fl zero2_fl.sect zero2_fl.thick zero2_fl.widths_m
        (Finset.univ : Finset (Fin 2)) (-4) (fun _ => -1) zero2_fl.surface_h ∧
    ∀ i, bin_volumechange zero2_fl.dx_meter zero2_fl.widths_m zero2_fl.thick
        (Finset.univ : Finset (Fin 2)) 7 (fun _ => -1) zero2_fl.surface_h i =
      (fun _ => (-1 : ℚ)) i *
        glacier_area zero2_fl.dx_meter zero2_fl.widths_m zero2_fl.thick i) :=
  ⟨by decide,
   degenerate_branch_ignores_volumechange zero2_fl zero2_fl.sect zero2_fl.thick
     zero2_fl.widths_m Finset.univ 7 (-4) (fun _ => -1) zero2_fl.surface_h (by decide)⟩

end PyGEM
